import Mathlib

/-!
Shallow embedding of the order-fulfillment core of the ApolloOracle bot:
the commission engine (`bot/services/affiliate_service.py`), the two
retryable external-service adapters (`bot/services/ai_service.py`,
`bot/services/bazi_service.py`), the payment webhook / refund adapter
(`bot/services/payment_service.py`) and the fulfillment saga
(`bot/services/order_processor.py`).

Monetary values (Python `Decimal` / `float` dollar amounts) are modelled
as `ℚ`; all amounts occurring in the code are exact decimals, so `ℚ`
comparisons agree with the source's `Decimal`/`float` comparisons.
Timestamps, log lines and the exact wording of interpolated error
messages are not modelled; status strings, error-message heads and the
order of externally visible side effects are.
-/

namespace ApolloOracle

/-! ### Commission engine (`bot/services/affiliate_service.py`) -/

/-- One entry of `AffiliateService.COMMISSION_TIERS`: a sales band
`min_sales ≤ s < max_sales` (with `max_sales = none` standing for the
Python `float('inf')`) and its commission rate. -/
structure Tier where
  min_sales : ℚ
  max_sales : Option ℚ
  rate : ℚ
deriving DecidableEq, Repr

/-- The configured tier list (`AffiliateService.COMMISSION_TIERS`,
lines 22-27): `[0,1000)→20%, [1001,3000)→25%, [3001,5000)→30%,
[5001,∞)→35%`. -/
def COMMISSION_TIERS : List Tier :=
  [ ⟨0, some 1000, 20/100⟩
  , ⟨1001, some 3000, 25/100⟩
  , ⟨3001, some 5000, 30/100⟩
  , ⟨5001, none, 35/100⟩ ]

/-- `AffiliateService.BONUS_THRESHOLD`. -/
def BONUS_THRESHOLD : ℚ := 8000

/-- `AffiliateService.BONUS_AMOUNT`. -/
def BONUS_AMOUNT : ℚ := 500

/-- The membership test of the Python tier loop:
`tier["min_sales"] <= sales < tier["max_sales"]`. -/
def tierMatches (t : Tier) (sales : ℚ) : Bool :=
  decide (t.min_sales ≤ sales) &&
    (match t.max_sales with
     | some m => decide (sales < m)
     | none => true)

/-- The `for tier in self.COMMISSION_TIERS: ... break` loop: the first
matching band together with its 1-based index (`.index(tier) + 1`). -/
def findTierAux : List Tier → ℚ → Nat → Option (ℚ × Nat)
  | [], _, _ => none
  | t :: ts, s, i => if tierMatches t s then some (t.rate, i) else findTierAux ts s (i + 1)

/-- First matching band of `COMMISSION_TIERS` for a sales value, with its
1-based tier number; `none` when no band matches. -/
def findTier (s : ℚ) : Option (ℚ × Nat) :=
  findTierAux COMMISSION_TIERS s 1

/-- Return value of `AffiliateService.calculate_commission`. -/
structure CommissionResult where
  commission_rate : ℚ
  commission_amount : ℚ
  bonus : ℚ
  total_commission : ℚ
  new_total_sales : ℚ
  new_tier : Nat
  old_tier : Nat
deriving DecidableEq, Repr

/-- `AffiliateService.calculate_commission(total_sales, order_amount)`
(lines 173-217): the rate and `new_tier` come from the first band
matching the *prior* cumulative sales (defaulting to 20% / tier 1 when
no band matches), the bonus fires when the new total reaches
`BONUS_THRESHOLD` while the prior total was below it. -/
def calculate_commission (total_sales order_amount : ℚ) : CommissionResult :=
  let new_total_sales := total_sales + order_amount
  let rt := (findTier total_sales).getD (20/100, 1)
  let commission_rate := rt.1
  let new_tier := rt.2
  let commission_amount := order_amount * commission_rate
  let bonus : ℚ :=
    if BONUS_THRESHOLD ≤ new_total_sales ∧ total_sales < BONUS_THRESHOLD then BONUS_AMOUNT else 0
  let total_commission := commission_amount + bonus
  { commission_rate := commission_rate
  , commission_amount := commission_amount
  , bonus := bonus
  , total_commission := total_commission
  , new_total_sales := new_total_sales
  , new_tier := new_tier
  , old_tier := if 20/100 < commission_rate then new_tier - 1 else 1 }

/-- Closed form of `findTier`: the configured bands, in order, with the
gaps `[1000,1001)`, `[3000,3001)`, `[5000,5001)` (and negative values)
matching no band. -/
theorem findTier_eq (s : ℚ) :
    findTier s =
      if 0 ≤ s ∧ s < 1000 then some (20/100, 1)
      else if 1001 ≤ s ∧ s < 3000 then some (25/100, 2)
      else if 3001 ≤ s ∧ s < 5000 then some (30/100, 3)
      else if 5001 ≤ s then some (35/100, 4)
      else none := by
  simp only [findTier, COMMISSION_TIERS, findTierAux, tierMatches, Bool.and_eq_true,
    decide_eq_true_eq]
  split_ifs <;> simp_all

/-! ### Referral accounts (`Affiliate` model and `update_affiliate_sales`) -/

/-- Mutable fields of the `Affiliate` row (`bot/models/affiliate.py`)
that the saga touches. -/
structure Affiliate where
  affiliate_code : String
  total_sales : ℚ
  total_commission : ℚ
  current_tier : Nat
deriving DecidableEq, Repr

/-- The affiliate table, looked up by `affiliate_code`. -/
abbrev AffStore := List Affiliate

/-- `db.query(Affiliate).filter(Affiliate.affiliate_code == code).first()`. -/
def findAffiliate (store : AffStore) (code : String) : Option Affiliate :=
  store.find? (fun a => a.affiliate_code = code)

/-- Committing an updated affiliate row back to the table. -/
def setAffiliate (store : AffStore) (a : Affiliate) : AffStore :=
  store.map (fun b => if b.affiliate_code = a.affiliate_code then a else b)

/-- `AffiliateService.update_affiliate_sales(code, order_amount,
commission_amount)` (lines 219-273): adds the order amount and the
frozen commission to the account's running totals unconditionally (there
is no per-order marker), then re-derives the tier from the *new* total,
defaulting to 1. Returns `false` (store unchanged) when the code is
unknown. -/
def update_affiliate_sales (store : AffStore) (code : String)
    (order_amount commission_amount : ℚ) : AffStore × Bool :=
  match findAffiliate store code with
  | none => (store, false)
  | some a =>
    let new_total_sales := a.total_sales + order_amount
    let new_total_commission := a.total_commission + commission_amount
    let new_tier := ((findTier new_total_sales).map Prod.snd).getD 1
    (setAffiliate store
      { a with total_sales := new_total_sales
             , total_commission := new_total_commission
             , current_tier := new_tier }, true)

/-! ### Orders and products (`bot/models/order.py`, `bot/config/products.py`) -/

/-- The `orders.status` column values. -/
inductive OrderStatus
  | pending_payment
  | paid
  | generating
  | completed
  | failed
  | refunded
deriving DecidableEq, Repr

/-- The fields of the `Order` row that the fulfillment saga and the
webhook handler read or write. The opaque `user_input` JSON map is
represented by the one key the saga inspects, `birthday` (`none` when
the key is absent; the other keys — name, birth_time, gender — all have
defaults in the code and never change control flow). -/
structure Order where
  order_id : String
  product_id : Nat
  product_name : Option String
  status : OrderStatus
  amount_usd : ℚ
  payment_id : Option String
  payment_method : Option String
  birthday : Option String
  bazi_data : Option String
  ai_report : Option String
  affiliate_code : Option String
  commission_amount : Option ℚ
  error_message : Option String
deriving DecidableEq, Repr

/-- Python truthiness of an optional string (`None` and `""` are falsy). -/
def truthyOptStr : Option String → Bool
  | none => false
  | some s => decide (s ≠ "")

/-- Python truthiness of an optional number (`None` and `0` are falsy). -/
def truthyOptQ : Option ℚ → Bool
  | none => false
  | some q => decide (q ≠ 0)

/-- The slice of a `Product` (`bot/config/products.py`) the saga uses. -/
structure Product where
  id : Nat
  price_usd : ℚ
  requires_bazi : Bool
deriving DecidableEq, Repr

/-- The `PRODUCTS` dict: only product 5 (Birth Bazi Chart) has
`requires_bazi=True`; product 1 (Daily Tarot) is free. -/
def PRODUCTS : List (Nat × Product) :=
  [ (1, ⟨1, 0, false⟩)
  , (2, ⟨2, 499/100, false⟩)
  , (3, ⟨3, 999/100, false⟩)
  , (4, ⟨4, 999/100, false⟩)
  , (5, ⟨5, 2999/100, true⟩)
  , (6, ⟨6, 1999/100, false⟩) ]

/-- `get_product(product_id)` = `PRODUCTS.get(product_id)`. -/
def get_product (i : Nat) : Option Product :=
  (PRODUCTS.find? (fun p => p.1 = i)).map Prod.snd

/-! ### Fulfillment saga (`bot/services/order_processor.py`) -/

/-- Outcome of the budget-wrapped `asyncio.wait_for(ai_service.generate_report …)`
call in `process_paid_order`: a returned report string, a `None` return
after the client's own retries were exhausted, an `asyncio.TimeoutError`
from the overall wall-clock budget, or some other raised exception. -/
inductive GenOutcome
  | ok (s : String)
  | exhausted
  | budgetTimeout
  | raised
deriving DecidableEq, Repr

/-- Exogenous behaviour of the external collaborators during one run of
`process_paid_order`: whether the user row exists, the result of the
enrichment call (`bazi_service.get_bazi_data`; `none` = failure after
its internal retries/mock handling), the outcome of the generation call,
and whether `payment_service.refund_order` reports success. -/
structure Env where
  userExists : Bool
  baziResult : Option String
  genResult : GenOutcome
  refundSucceeds : Bool
deriving DecidableEq, Repr

/-- Externally visible side effects of one `process_paid_order` run, in
program order. -/
inductive Effect
  | baziCall
  | genCall
  | refundCall
  | notifyUserFailed (isFree : Bool)
  | notifyAdmin
  | sendReport
deriving DecidableEq, Repr

/-- Result of one `process_paid_order` run: the final order row (`none`
when the order did not exist), the affiliate table, the returned
boolean, and the effect trace. -/
structure ProcResult where
  order : Option Order
  affiliates : AffStore
  returned : Bool
  effects : List Effect
deriving DecidableEq, Repr

/-- `payment_service.refund_order`: on success the order row is marked
`refunded` (both the mock branch and the live success branch do this);
on failure it is left untouched. -/
def apply_refund (o : Order) (success : Bool) : Order :=
  if success then { o with status := OrderStatus.refunded } else o

/-- The completion block of `process_paid_order` (lines 362-384): store
the report, mark the order `completed`, and — when `affiliate_code`,
`commission_amount` and `amount_usd` are all truthy — apply the frozen
figures to the affiliate account via `update_affiliate_sales`. -/
def completion_step (o : Order) (store : AffStore) (report : String) : Order × AffStore :=
  let o2 := { o with ai_report := some report, status := OrderStatus.completed }
  if truthyOptStr o.affiliate_code && truthyOptQ o.commission_amount &&
      decide (o.amount_usd ≠ 0) then
    (o2, (update_affiliate_sales store (o.affiliate_code.getD "")
            o.amount_usd (o.commission_amount.getD 0)).1)
  else
    (o2, store)

/-- The report value seen by `if not report:` in the saga. -/
def reportOf : GenOutcome → Option String
  | .ok s => some s
  | _ => none

/-- Python falsiness of the report (`None` or `""`). -/
def reportFalsy : GenOutcome → Bool
  | .ok s => decide (s = "")
  | _ => true

/-- Error message head recorded on generation failure (the code
interpolates timings into these; only the head is modelled). -/
def genErrorMessage : GenOutcome → String
  | .budgetTimeout => "AI report generation timeout"
  | .raised => "AI report generation error"
  | _ => "Failed to generate AI report"

/-- Steps 3-4 of `process_paid_order` (lines 219-416), entered after the
optional enrichment step with the accumulated effect trace `acc`: call
the generation client; on a falsy report notify the user first (free vs
paid wording chosen by `amount_usd == 0.0`), mark the order `failed`,
refund when `amount_usd > 0.0` (success flips the row to `refunded`),
notify the admin, and return `False`; on success run the completion
block, then send the report (returning `False` without sending when
`product_name` is falsy). -/
def generation_phase (o : Order) (store : AffStore) (env : Env)
    (acc : List Effect) : ProcResult :=
  if reportFalsy env.genResult then
    let isFree := decide (o.amount_usd = 0)
    let o2 := { o with status := OrderStatus.failed
                     , error_message := some (genErrorMessage env.genResult) }
    if 0 < o.amount_usd then
      ⟨some (apply_refund o2 env.refundSucceeds), store, false,
        acc ++ [Effect.genCall, Effect.notifyUserFailed isFree, Effect.refundCall,
                Effect.notifyAdmin]⟩
    else
      ⟨some o2, store, false,
        acc ++ [Effect.genCall, Effect.notifyUserFailed isFree, Effect.notifyAdmin]⟩
  else
    let p := completion_step o store ((reportOf env.genResult).getD "")
    if truthyOptStr o.product_name then
      ⟨some p.1, p.2, true, acc ++ [Effect.genCall, Effect.sendReport]⟩
    else
      ⟨some p.1, p.2, false, acc ++ [Effect.genCall]⟩

/-- `OrderProcessor.process_paid_order(order_id)` (lines 28-416), as a
function of the addressed order row (`none` = not found), the affiliate
table, and the collaborators' behaviour. Control flow mirrors the
source: status guard, user lookup, `paid → generating`, the conditional
enrichment step with its three failure modes (missing birthday: mark
`failed` and stop with *no* refund and no notification; enrichment
failure: mark `failed`, refund, then notify the user on refund success
or the admin on refund failure; success: persist the payload), the
missing-product check, then the generation phase. -/
def process_paid_order (ord? : Option Order) (store : AffStore) (env : Env) : ProcResult :=
  match ord? with
  | none => ⟨none, store, false, []⟩
  | some o0 =>
    if o0.status ≠ OrderStatus.paid then
      ⟨some o0, store, false, []⟩
    else if env.userExists = false then
      ⟨some { o0 with status := OrderStatus.failed
                    , error_message := some "User not found" }, store, false, []⟩
    else
      let o1 := { o0 with status := OrderStatus.generating }
      match get_product o1.product_id with
      | none =>
        ⟨some { o1 with status := OrderStatus.failed
                      , error_message := some "Product not found" }, store, false, []⟩
      | some p =>
        if p.requires_bazi then
          if truthyOptStr o1.birthday = false then
            ⟨some { o1 with status := OrderStatus.failed
                          , error_message :=
                              some "Missing required information: birthday" },
              store, false, []⟩
          else
            match env.baziResult with
            | none =>
              let o2 := { o1 with status := OrderStatus.failed
                                , error_message :=
                                    some "Failed to fetch Bazi data from API" }
              if env.refundSucceeds then
                ⟨some (apply_refund o2 true), store, false,
                  [Effect.baziCall, Effect.refundCall, Effect.notifyUserFailed false]⟩
              else
                ⟨some o2, store, false,
                  [Effect.baziCall, Effect.refundCall, Effect.notifyAdmin]⟩
            | some raw =>
              generation_phase { o1 with bazi_data := some raw } store env
                [Effect.baziCall]
        else
          generation_phase o1 store env []

/-! ### Retryable adapters (`bot/services/ai_service.py`, `bot/services/bazi_service.py`) -/

/-- `AIService.max_retries` and `BaziService.max_retries`. -/
def max_retries : Nat := 2

/-- `BaziService.timeout` (`self.timeout = 15`): a constant per-attempt
timeout — the Bazi loop passes `self.timeout` to every request. -/
def bazi_timeout : ℚ := 15

/-- One attempt of a retry loop: the backoff wait (seconds slept before
the attempt; `2 ** (attempt - 1)` for retries, none before the first)
and the per-attempt timeout handed to the HTTP client. -/
structure AttemptRec where
  wait : Nat
  timeout : ℚ
deriving DecidableEq, Repr

/-- Backoff wait before attempt `k` (0-based): none before the first
attempt, `2 ** (k - 1)` seconds otherwise. -/
def backoff_wait (k : Nat) : Nat :=
  if k = 0 then 0 else 2 ^ (k - 1)

/-- Outcome of one HTTP attempt in `AIService.generate_report`,
classified by which branch of the loop body it reaches. -/
inductive AIOutcome
  | content (s : String)
  | emptyContent
  | badFormat
  | parseError
  | serverError (code : Nat)
  | clientError (code : Nat)
  | timeout
  | connError
  | unexpected
deriving DecidableEq, Repr

/-- Branches of `generate_report` that `break` out of the loop
unconditionally: 4xx responses and unexpected exceptions. All other
non-success branches proceed to the next attempt when one remains. -/
def aiStops : AIOutcome → Bool
  | .clientError _ => true
  | .unexpected => true
  | _ => false

/-- The successful branch: HTTP 200 with parsed, non-empty content. -/
def aiSucceeds : AIOutcome → Option String
  | .content s => some s
  | _ => none

/-- The `for attempt in range(self.max_retries + 1)` loop of
`AIService.generate_report` (lines 241-351), unrolled on the number of
attempts still available (`fuel`); `k` is the 0-based attempt index.
Each attempt sleeps `backoff_wait k`, uses per-attempt timeout
`base * 2 ** k`, and either returns the content, breaks, or retries. -/
def ai_attempts (base : ℚ) (f : Nat → AIOutcome) : Nat → Nat → List AttemptRec × Option String
  | _, 0 => ([], none)
  | k, fuel + 1 =>
    let a : AttemptRec := ⟨backoff_wait k, base * 2 ^ k⟩
    match aiSucceeds (f k) with
    | some s => ([a], some s)
    | none =>
      if aiStops (f k) || fuel == 0 then ([a], none)
      else
        let rest := ai_attempts base f (k + 1) fuel
        (a :: rest.1, rest.2)

/-- `AIService.generate_report` with configured base timeout `base`,
given each attempt's outcome: the list of attempts made and the
returned content (`none` = the Python function returns `None`). -/
def generate_report (base : ℚ) (f : Nat → AIOutcome) : List AttemptRec × Option String :=
  ai_attempts base f 0 (max_retries + 1)

/-- Outcome of one HTTP attempt in `BaziService.get_bazi_data`. A 200
response whose JSON fails to parse, or whose body reports a business
error, `break`s (the business-error branch retries only for status
`>= 500`, impossible on a 200 response), as do 4xx responses and
unexpected exceptions. -/
inductive BaziOutcome
  | okSuccess (data : String)
  | okBusinessError
  | okParseError
  | serverError (code : Nat)
  | clientError (code : Nat)
  | timeout
  | connError
  | unexpected
deriving DecidableEq, Repr

/-- Branches of `get_bazi_data` that `break` out of the loop. -/
def baziStops : BaziOutcome → Bool
  | .okBusinessError => true
  | .okParseError => true
  | .clientError _ => true
  | .unexpected => true
  | _ => false

/-- The successful branch of `get_bazi_data`. -/
def baziSucceeds : BaziOutcome → Option String
  | .okSuccess d => some d
  | _ => none

/-- The retry loop of `BaziService.get_bazi_data` (lines 73-199) with the
API key configured and mock mode off. The backoff schedule matches the
AI loop, but every attempt passes the same constant `self.timeout`
(15s) to the client — the per-attempt timeout is *not* doubled. -/
def bazi_attempts (f : Nat → BaziOutcome) : Nat → Nat → List AttemptRec × Option String
  | _, 0 => ([], none)
  | k, fuel + 1 =>
    let a : AttemptRec := ⟨backoff_wait k, bazi_timeout⟩
    match baziSucceeds (f k) with
    | some d => ([a], some d)
    | none =>
      if baziStops (f k) || fuel == 0 then ([a], none)
      else
        let rest := bazi_attempts f (k + 1) fuel
        (a :: rest.1, rest.2)

/-- `BaziService.get_bazi_data` (non-mock, key configured), given each
attempt's outcome. -/
def get_bazi_data (f : Nat → BaziOutcome) : List AttemptRec × Option String :=
  bazi_attempts f 0 (max_retries + 1)

/-- The overall wall-clock budget computed in `process_paid_order`
(lines 269-276): `max(configured_total_timeout,
sum(ai_service.timeout * 2 ** i for i in range(max_retries + 1)) + 30)`. -/
def total_timeout (configured base : ℚ) (retries : Nat) : ℚ :=
  max configured ((((List.range (retries + 1)).map (fun i => base * 2 ^ i)).sum) + 30)

/-! ### Payment webhook (`bot/services/payment_service.py`) -/

/-- The webhook payload fields `process_payment_webhook` reads. -/
structure WebhookPayload where
  order_id : String
  status : String
  payment_id : Option String
  payment_method : Option String
  error_message : Option String
deriving DecidableEq, Repr

/-- The orders table, looked up by `order_id`. -/
abbrev OrderStore := List Order

/-- `db.query(Order).filter(Order.order_id == oid).first()`. -/
def findOrder (store : OrderStore) (oid : String) : Option Order :=
  store.find? (fun o => o.order_id = oid)

/-- Committing an updated order row back to the table. -/
def setOrder (store : OrderStore) (o : Order) : OrderStore :=
  store.map (fun b => if b.order_id = o.order_id then o else b)

/-- `PaymentService.process_payment_webhook(payload, signature)`
(lines 289-352). Signature verification (`verify_webhook_signature`:
an HMAC-style digest compare, delegated to external hashing) is passed
in as `verify`. On a valid signature the payload status is mapped to the
order row *unconditionally* — the order's current status is never
consulted: `paid` sets `status="paid"` (plus payment id/method),
`failed` and `cancelled` set `status="failed"`, anything else returns
`False` without mutation, as do an invalid signature, a falsy
`order_id`, and an unknown order. -/
def process_payment_webhook (verify : WebhookPayload → String → Bool)
    (store : OrderStore) (payload : WebhookPayload) (signature : String) :
    Bool × OrderStore :=
  if verify payload signature = false then (false, store)
  else if payload.order_id = "" then (false, store)
  else
    match findOrder store payload.order_id with
    | none => (false, store)
    | some o =>
      if payload.status = "paid" then
        (true, setOrder store
          { o with status := OrderStatus.paid
                 , payment_id := payload.payment_id
                 , payment_method := some (payload.payment_method.getD "unknown") })
      else if payload.status = "failed" then
        (true, setOrder store
          { o with status := OrderStatus.failed
                 , error_message := some (payload.error_message.getD "Payment failed") })
      else if payload.status = "cancelled" then
        (true, setOrder store
          { o with status := OrderStatus.failed
                 , error_message := some "Payment cancelled by user" })
      else (false, store)

/-! ### Claims about the commission engine -/

/-- C4 fails on the code: the configured bands are `[0,1000)`,
`[1001,3000)`, `[3001,5000)`, `[5001,∞)`, so a prior cumulative sales
value of exactly 1000 matches *no* band — the loop falls through and the
default 20% / tier 1 applies, not the 25% the claim requires. -/
theorem C4_counterexample :
    COMMISSION_TIERS.all (fun t => !(tierMatches t 1000)) = true ∧
    (calculate_commission 1000 100).commission_rate = 20/100 ∧
    ¬ (calculate_commission 1000 100).commission_rate = 25/100 := by
  refine ⟨by decide, ?_, ?_⟩ <;> simp [calculate_commission, findTier_eq] <;> norm_num

/-- C4 amended: tier lookup is deterministic (at most one band matches
any sales value, and the loop takes the first) but not total: the bands
leave gaps `[1000,1001)`, `[3000,3001)`, `[5000,5001)` (and negative
values) in which no band matches and the default 20% rate / tier 1 is
used; in particular prior sales exactly 1000 selects 20%, not 25%,
while the band `[1001,3000)` (from 1001 on) selects 25%. -/
theorem C4_amended (s a : ℚ) :
    (COMMISSION_TIERS.filter (fun t => tierMatches t s)).length ≤ 1 ∧
    ((1000 ≤ s ∧ s < 1001) ∨ (3000 ≤ s ∧ s < 3001) ∨ (5000 ≤ s ∧ s < 5001) ∨ s < 0 →
      findTier s = none ∧
      (calculate_commission s a).commission_rate = 20/100 ∧
      (calculate_commission s a).new_tier = 1) ∧
    (1001 ≤ s → s < 3000 → (calculate_commission s a).commission_rate = 25/100) := by
  refine ⟨?_, ?_, ?_⟩
  · simp only [COMMISSION_TIERS, List.filter_cons, List.filter_nil, tierMatches,
      Bool.and_eq_true, decide_eq_true_eq]
    split_ifs <;> simp_all <;> linarith
  · intro h
    have hnone : findTier s = none := by
      rcases h with h | h | h | h
      · have k1 : ¬ (s < 1000) := by linarith [h.1]
        have k2 : ¬ (1001 ≤ s) := by linarith [h.2]
        have k3 : ¬ (3001 ≤ s) := by linarith [h.2]
        have k4 : ¬ (5001 ≤ s) := by linarith [h.2]
        simp [findTier_eq, k1, k2, k3, k4]
      · have k1 : ¬ (s < 1000) := by linarith [h.1]
        have k2 : ¬ (s < 3000) := by linarith [h.1]
        have k3 : ¬ (3001 ≤ s) := by linarith [h.2]
        have k4 : ¬ (5001 ≤ s) := by linarith [h.2]
        simp [findTier_eq, k1, k2, k3, k4]
      · have k1 : ¬ (s < 1000) := by linarith [h.1]
        have k2 : ¬ (s < 3000) := by linarith [h.1]
        have k3 : ¬ (s < 5000) := by linarith [h.1]
        have k4 : ¬ (5001 ≤ s) := by linarith [h.2]
        simp [findTier_eq, k1, k2, k3, k4]
      · have k1 : ¬ (0 ≤ s) := by linarith
        have k2 : ¬ (1001 ≤ s) := by linarith
        have k3 : ¬ (3001 ≤ s) := by linarith
        have k4 : ¬ (5001 ≤ s) := by linarith
        simp [findTier_eq, k1, k2, k3, k4]
    simp [calculate_commission, hnone]
  · intro h1 h2
    have k1 : ¬ (s < 1000) := by linarith
    have k3 : ¬ (3001 ≤ s) := by linarith
    have k4 : ¬ (5001 ≤ s) := by linarith
    have hsome : findTier s = some (25/100, 2) := by
      simp [findTier_eq, h1, h2, k1, k3, k4]
    simp [calculate_commission, hsome]

/-- C4 amended, instantiated at the boundary value 1000 with order
amount 100: no band matches, the rate defaults to 20%, tier to 1. -/
theorem C4_amended_witness :
    findTier 1000 = none ∧
    (calculate_commission 1000 100).commission_rate = 20/100 ∧
    (calculate_commission 1000 100).new_tier = 1 :=
  (C4_amended 1000 100).2.1 (Or.inl ⟨by norm_num, by norm_num⟩)

/-- C6 fails on the code: with prior sales 0 and order amount 2000 the
new cumulative total 2000 lies in the second band (tier 2), but
`calculate_commission` returns `new_tier = 1` — the tier is derived from
the *prior* cumulative sales, not re-evaluated against the new total. -/
theorem C6_counterexample :
    (calculate_commission 0 2000).new_total_sales = 2000 ∧
    findTier (calculate_commission 0 2000).new_total_sales = some (25/100, 2) ∧
    (calculate_commission 0 2000).new_tier = 1 ∧
    (1 : Nat) ≠ 2 := by
  refine ⟨?_, ?_, ?_, by decide⟩
  all_goals
    simp only [calculate_commission, findTier_eq]
    norm_num

/-- C6 amended: `newCumulativeSales = priorCumulativeSales + orderAmount`
as claimed, but `newTier` (like the rate) is derived from the band of
the *prior* cumulative sales, defaulting to tier 1 / 20% when no band
matches; the re-evaluation against the new total happens only later, in
`update_affiliate_sales`. -/
theorem C6_amended (s a : ℚ) :
    (calculate_commission s a).new_total_sales = s + a ∧
    (calculate_commission s a).new_tier =
      (if 0 ≤ s ∧ s < 1000 then 1
       else if 1001 ≤ s ∧ s < 3000 then 2
       else if 3001 ≤ s ∧ s < 5000 then 3
       else if 5001 ≤ s then 4
       else 1) ∧
    (calculate_commission s a).commission_rate =
      (if 0 ≤ s ∧ s < 1000 then 20/100
       else if 1001 ≤ s ∧ s < 3000 then 25/100
       else if 3001 ≤ s ∧ s < 5000 then 30/100
       else if 5001 ≤ s then 35/100
       else 20/100) := by
  refine ⟨by simp [calculate_commission], ?_, ?_⟩
  all_goals
    simp only [calculate_commission, findTier_eq]
    split_ifs <;> simp

/-- C7: the one-time bonus is granted exactly when this order makes the
cumulative sales cross `BONUS_THRESHOLD` (8000): `bonus > 0` iff
`prior < 8000 ≤ prior + amount`, and any order whose prior sales already
reach the threshold gets `bonus = 0`. -/
theorem C7_bonus_exactly_on_crossing (s a : ℚ) :
    (0 < (calculate_commission s a).bonus ↔
      s < BONUS_THRESHOLD ∧ BONUS_THRESHOLD ≤ s + a) ∧
    (BONUS_THRESHOLD ≤ s → (calculate_commission s a).bonus = 0) := by
  have hpos : (0 : ℚ) < BONUS_AMOUNT := by norm_num [BONUS_AMOUNT]
  constructor
  · simp only [calculate_commission]
    split_ifs with h
    · simpa [hpos] using And.intro h.2 h.1
    · simp only [lt_self_iff_false, false_iff]
      intro hc
      exact h ⟨hc.2, hc.1⟩
  · intro hs
    simp only [calculate_commission]
    split_ifs with h
    · exact absurd h.2 (not_lt.mpr hs)
    · rfl

/-- C7 instantiated just around the threshold: prior 7900 plus an order
of 200 crosses 8000 and earns a bonus; prior 8000 never does. -/
theorem C7_witness :
    (0 < (calculate_commission 7900 200).bonus ↔
      (7900 : ℚ) < BONUS_THRESHOLD ∧ BONUS_THRESHOLD ≤ 7900 + 200) ∧
    (calculate_commission 8000 200).bonus = 0 :=
  ⟨(C7_bonus_exactly_on_crossing 7900 200).1,
   (C7_bonus_exactly_on_crossing 8000 200).2 (by norm_num [BONUS_THRESHOLD])⟩

/-! ### Claims about commission application (completion step) -/

/-- Fixture for the commission-application claim: an order in the
completion block carrying a frozen commission, and its affiliate row. -/
def orderWithAffiliate : Order :=
  { order_id := "ORD_A", product_id := 2, product_name := some "Weekly Horoscope"
  , status := OrderStatus.generating, amount_usd := 100, payment_id := some "PAY_A"
  , payment_method := some "card", birthday := none, bazi_data := none
  , ai_report := none, affiliate_code := some "AFF_X", commission_amount := some 20
  , error_message := none }

/-- Affiliate table backing `orderWithAffiliate`: one account with zero
running totals. -/
def affStoreX : AffStore := [⟨"AFF_X", 0, 0, 1⟩]

/-- C2 fails on the code: `update_affiliate_sales` carries no per-order
idempotency marker, so executing the completion block of
`process_paid_order` twice for the same order (a retried commit) adds
the order amount to the account's cumulative sales twice: totals go
0 → 100 → 200 instead of staying at 100. -/
theorem C2_counterexample :
    (findAffiliate (completion_step orderWithAffiliate affStoreX "r").2 "AFF_X").map
        (fun x => x.total_sales) = some 100 ∧
    (findAffiliate
        (completion_step (completion_step orderWithAffiliate affStoreX "r").1
          (completion_step orderWithAffiliate affStoreX "r").2 "r").2 "AFF_X").map
        (fun x => x.total_sales) = some 200 ∧
    (200 : ℚ) ≠ 100 := by
  refine ⟨?_, ?_, by norm_num⟩
  all_goals
    simp [orderWithAffiliate, affStoreX, completion_step, update_affiliate_sales,
      findAffiliate, setAffiliate, truthyOptStr, truthyOptQ, findTier_eq,
      List.find?] <;> norm_num

/-- Helper: committing an updated affiliate row whose code is `code`
leaves it as the row found for `code`. -/
theorem findAffiliate_setAffiliate (store : AffStore) (a : Affiliate) (code : String)
    (hfound : (findAffiliate store code).isSome) (ha : a.affiliate_code = code) :
    findAffiliate (setAffiliate store a) code = some a := by
  induction store with
  | nil => simp [findAffiliate] at hfound
  | cons b l ih =>
    by_cases hb : b.affiliate_code = code
    · have hb2 : b.affiliate_code = a.affiliate_code := by rw [hb, ha]
      simp [findAffiliate, setAffiliate, List.find?, hb2, ha]
    · have hb2 : ¬ b.affiliate_code = a.affiliate_code := by rw [ha]; exact hb
      have htail : (findAffiliate l code).isSome := by
        simpa [findAffiliate, List.find?, hb] using hfound
      simpa [findAffiliate, setAffiliate, List.find?, hb2, hb] using ih htail

/-- Helper: the row that `findAffiliate` returns carries the looked-up
code. -/
theorem findAffiliate_code (store : AffStore) (code : String) (a : Affiliate)
    (h : findAffiliate store code = some a) : a.affiliate_code = code := by
  simpa using List.find?_some h

/-- Helper: effect of one `update_affiliate_sales` on the row it
targets — the totals grow by exactly the supplied order amount and
commission. -/
theorem update_affiliate_sales_spec (store : AffStore) (code : String)
    (amt com : ℚ) (a : Affiliate) (hfind : findAffiliate store code = some a) :
    findAffiliate (update_affiliate_sales store code amt com).1 code =
      some { a with total_sales := a.total_sales + amt
                  , total_commission := a.total_commission + com
                  , current_tier :=
                      ((findTier (a.total_sales + amt)).map Prod.snd).getD 1 } := by
  have hcode := findAffiliate_code store code a hfind
  simp only [update_affiliate_sales, hfind]
  exact findAffiliate_setAffiliate store _ code
    (by simp [hfind]) (by simp [hcode])

/-- C2 amended: the completion block applies the frozen figures to the
affiliate account once per *execution*, with no per-order idempotency
key: after running it once the totals have grown by the order amount and
commission, after running it twice (a retried commit) they have grown by
twice those figures. Only re-invoking the whole `process_paid_order` is
idempotent, via its `paid`-status entry guard. -/
theorem C2_amended (o : Order) (store : AffStore) (r : String) (a : Affiliate)
    (hcode : o.affiliate_code = some a.affiliate_code)
    (hfind : findAffiliate store a.affiliate_code = some a)
    (hc : truthyOptStr o.affiliate_code = true)
    (hm : truthyOptQ o.commission_amount = true)
    (hz : o.amount_usd ≠ 0) :
    (findAffiliate (completion_step o store r).2 a.affiliate_code).map
        (fun x => (x.total_sales, x.total_commission)) =
      some (a.total_sales + o.amount_usd,
            a.total_commission + o.commission_amount.getD 0) ∧
    (findAffiliate
        (completion_step (completion_step o store r).1
          (completion_step o store r).2 r).2 a.affiliate_code).map
        (fun x => (x.total_sales, x.total_commission)) =
      some (a.total_sales + o.amount_usd + o.amount_usd,
            a.total_commission + o.commission_amount.getD 0 +
              o.commission_amount.getD 0) := by
  have hget : o.affiliate_code.getD "" = a.affiliate_code := by
    simp [hcode]
  have hstep : ∀ (st : AffStore) (oo : Order),
      oo.affiliate_code = o.affiliate_code →
      oo.commission_amount = o.commission_amount →
      oo.amount_usd = o.amount_usd →
      (completion_step oo st r).2 =
        (update_affiliate_sales st a.affiliate_code o.amount_usd
          (o.commission_amount.getD 0)).1 := by
    intro st oo h1 h2 h3
    simp [completion_step, h1, h2, h3, hc, hm, hz, hget]
  have e1 : (completion_step o store r).2 =
      (update_affiliate_sales store a.affiliate_code o.amount_usd
        (o.commission_amount.getD 0)).1 :=
    hstep store o rfl rfl rfl
  have hfind1 := update_affiliate_sales_spec store a.affiliate_code
    o.amount_usd (o.commission_amount.getD 0) a hfind
  rw [e1]
  refine ⟨by simp [hfind1], ?_⟩
  have e2 : (completion_step (completion_step o store r).1
      (update_affiliate_sales store a.affiliate_code o.amount_usd
        (o.commission_amount.getD 0)).1 r).2 =
      (update_affiliate_sales
        (update_affiliate_sales store a.affiliate_code o.amount_usd
          (o.commission_amount.getD 0)).1
        a.affiliate_code o.amount_usd (o.commission_amount.getD 0)).1 := by
    refine hstep _ _ ?_ ?_ ?_ <;> simp [completion_step, hc, hm, hz]
  rw [e2]
  have hfind2 := update_affiliate_sales_spec _ a.affiliate_code
    o.amount_usd (o.commission_amount.getD 0) _ hfind1
  simp [hfind2]

/-- C2 amended, instantiated at `orderWithAffiliate` over `affStoreX`:
totals grow to (100, 20) after one execution and (200, 40) after two. -/
theorem C2_amended_witness :
    (findAffiliate (completion_step orderWithAffiliate affStoreX "r").2 "AFF_X").map
        (fun x => (x.total_sales, x.total_commission)) = some (0 + 100, 0 + 20) ∧
    (findAffiliate
        (completion_step (completion_step orderWithAffiliate affStoreX "r").1
          (completion_step orderWithAffiliate affStoreX "r").2 "r").2 "AFF_X").map
        (fun x => (x.total_sales, x.total_commission)) =
      some (0 + 100 + 100, 0 + 20 + 20) :=
  C2_amended orderWithAffiliate affStoreX "r" ⟨"AFF_X", 0, 0, 1⟩
    rfl rfl rfl rfl (by norm_num [orderWithAffiliate])

/-! ### Path lemmas for the saga -/

/-- Helper: with a valid user and a product that does not require
enrichment, the saga runs straight into the generation phase on the
claimed (`generating`) order. -/
theorem process_nonbazi (o : Order) (store : AffStore) (env : Env) (p : Product)
    (h1 : o.status = OrderStatus.paid) (h2 : env.userExists = true)
    (h3 : get_product o.product_id = some p) (h4 : p.requires_bazi = false) :
    process_paid_order (some o) store env =
      generation_phase { o with status := OrderStatus.generating } store env [] := by
  simp [process_paid_order, h1, h2, h3, h4]

/-- Helper: enrichment-failure path — the order is marked `failed` (then
flipped to `refunded` when the refund succeeds), and the user is told of
the refund only on refund success, the admin being notified instead on
refund failure. -/
theorem process_bazi_fail (o : Order) (store : AffStore) (env : Env) (p : Product)
    (h1 : o.status = OrderStatus.paid) (h2 : env.userExists = true)
    (h3 : get_product o.product_id = some p) (h4 : p.requires_bazi = true)
    (h5 : truthyOptStr o.birthday = true) (h6 : env.baziResult = none) :
    process_paid_order (some o) store env =
      if env.refundSucceeds then
        ⟨some { o with status := OrderStatus.refunded
                     , error_message := some "Failed to fetch Bazi data from API" },
          store, false,
          [Effect.baziCall, Effect.refundCall, Effect.notifyUserFailed false]⟩
      else
        ⟨some { o with status := OrderStatus.failed
                     , error_message := some "Failed to fetch Bazi data from API" },
          store, false,
          [Effect.baziCall, Effect.refundCall, Effect.notifyAdmin]⟩ := by
  by_cases hr : env.refundSucceeds <;>
    simp [process_paid_order, h1, h2, h3, h4, h5, h6, apply_refund, hr]

/-- Helper: generation-failure path for a paid order — the user is
notified (with the paid, refund-promising wording) *before* the refund
is attempted and regardless of its outcome, then the refund runs and the
admin is notified. -/
theorem generation_phase_fail_paid (o : Order) (store : AffStore) (env : Env)
    (acc : List Effect) (hg : reportFalsy env.genResult = true)
    (hamt : 0 < o.amount_usd) :
    generation_phase o store env acc =
      ⟨some (apply_refund
          { o with status := OrderStatus.failed
                 , error_message := some (genErrorMessage env.genResult) }
          env.refundSucceeds), store, false,
        acc ++ [Effect.genCall, Effect.notifyUserFailed false, Effect.refundCall,
                Effect.notifyAdmin]⟩ := by
  simp [generation_phase, hg, hamt, hamt.ne']

/-- Helper: generation-failure path when the amount is not positive —
no refund is attempted and the free/paid wording follows the
`amount == 0.0` test. -/
theorem generation_phase_fail_nonpos (o : Order) (store : AffStore) (env : Env)
    (acc : List Effect) (hg : reportFalsy env.genResult = true)
    (hamt : ¬ 0 < o.amount_usd) :
    generation_phase o store env acc =
      ⟨some { o with status := OrderStatus.failed
                   , error_message := some (genErrorMessage env.genResult) },
        store, false,
        acc ++ [Effect.genCall, Effect.notifyUserFailed (decide (o.amount_usd = 0)),
                Effect.notifyAdmin]⟩ := by
  simp [generation_phase, hg, hamt]

/-- Helper: generation-failure path for a free order — the user is told
to retry (free wording) and no refund is attempted. -/
theorem generation_phase_fail_free (o : Order) (store : AffStore) (env : Env)
    (acc : List Effect) (hg : reportFalsy env.genResult = true)
    (hamt : o.amount_usd = 0) :
    generation_phase o store env acc =
      ⟨some { o with status := OrderStatus.failed
                   , error_message := some (genErrorMessage env.genResult) },
        store, false,
        acc ++ [Effect.genCall, Effect.notifyUserFailed true, Effect.notifyAdmin]⟩ := by
  simp [generation_phase, hg, hamt]

/-! ### Claims about the saga's guard and failure paths -/

/-- Fixture: an already-completed order (terminal state). -/
def orderCompleted : Order :=
  { order_id := "ORD_D", product_id := 1, product_name := some "Daily Tarot Draw"
  , status := OrderStatus.completed, amount_usd := 0, payment_id := none
  , payment_method := none, birthday := none, bazi_data := none
  , ai_report := some "done", affiliate_code := none, commission_amount := none
  , error_message := none }

/-- Fixture: a benign environment (user exists, enrichment fails if
called, generation succeeds, refunds succeed). -/
def envBenign : Env := ⟨true, none, GenOutcome.ok "report", true⟩

/-- C3: `process_paid_order` is a guarded no-op — for an order in any
status other than `paid` it returns `false` immediately with the order
row, the affiliate table and the effect trace (no enrichment,
generation, refund or notification calls) untouched, and likewise for a
missing order. -/
theorem C3_nonpaid_noop :
    (∀ (o : Order) (store : AffStore) (env : Env),
      o.status ≠ OrderStatus.paid →
      process_paid_order (some o) store env = ⟨some o, store, false, []⟩) ∧
    (∀ (store : AffStore) (env : Env),
      process_paid_order none store env = ⟨none, store, false, []⟩) := by
  constructor
  · intro o store env h
    simp [process_paid_order, h]
  · intro store env
    rfl

/-- C3 instantiated at a completed order and at a missing order. -/
theorem C3_witness :
    process_paid_order (some orderCompleted) [] envBenign =
      ⟨some orderCompleted, [], false, []⟩ ∧
    process_paid_order none [] envBenign = ⟨none, [], false, []⟩ :=
  ⟨C3_nonpaid_noop.1 orderCompleted [] envBenign (by decide),
   C3_nonpaid_noop.2 [] envBenign⟩

/-- Fixture: a paid enrichment-requiring order whose stored user input
has no birth date. -/
def orderBaziNoBirthday : Order :=
  { order_id := "ORD_B", product_id := 5, product_name := some "Birth Bazi Chart"
  , status := OrderStatus.paid, amount_usd := 30, payment_id := some "PAY_B"
  , payment_method := some "card", birthday := none, bazi_data := none
  , ai_report := none, affiliate_code := none, commission_amount := none
  , error_message := none }

/-- C1 fails on the code: a paid order (amount 30 ≠ 0) for the
enrichment-requiring product whose input lacks a birth date is marked
`failed` and the run stops — but *no* refund is issued (the effect trace
is refund-free; in fact it is empty: the user is not notified either).
The claim requires a refund for non-zero amounts. -/
theorem C1_counterexample :
    0 < orderBaziNoBirthday.amount_usd ∧
    (get_product orderBaziNoBirthday.product_id).map (fun p => p.requires_bazi) =
      some true ∧
    (process_paid_order (some orderBaziNoBirthday) [] envBenign).order.map
      (fun x => x.status) = some OrderStatus.failed ∧
    (process_paid_order (some orderBaziNoBirthday) [] envBenign).returned = false ∧
    Effect.refundCall ∉ (process_paid_order (some orderBaziNoBirthday) [] envBenign).effects := by
  refine ⟨by decide, by decide, ?_, ?_, ?_⟩ <;> decide

/-- C1 amended: for every `paid` order of an enrichment-requiring
product whose stored input lacks a (truthy) birth date, the saga
terminates immediately, marks the order `failed` with the
missing-birthday error, returns `false`, and performs *no* side effects
at all — in particular no refund, even when the amount is non-zero, and
no user notification (unlike the enrichment-API-failure and
generation-failure paths). -/
theorem C1_amended (o : Order) (store : AffStore) (env : Env) (p : Product)
    (h1 : o.status = OrderStatus.paid) (h2 : env.userExists = true)
    (h3 : get_product o.product_id = some p) (h4 : p.requires_bazi = true)
    (h5 : truthyOptStr o.birthday = false) :
    process_paid_order (some o) store env =
      ⟨some { o with status := OrderStatus.failed
                   , error_message := some "Missing required information: birthday" },
        store, false, []⟩ := by
  simp [process_paid_order, h1, h2, h3, h4, h5]

/-- C1 amended, instantiated at `orderBaziNoBirthday`. -/
theorem C1_amended_witness :
    process_paid_order (some orderBaziNoBirthday) [] envBenign =
      ⟨some { orderBaziNoBirthday with
                status := OrderStatus.failed
              , error_message := some "Missing required information: birthday" },
        [], false, []⟩ :=
  C1_amended orderBaziNoBirthday [] envBenign ⟨5, 2999/100, true⟩ rfl rfl rfl rfl rfl

/-- Fixture: a paid order for a non-enrichment product. -/
def orderPaidGen : Order :=
  { order_id := "ORD_C", product_id := 2, product_name := some "Weekly Horoscope"
  , status := OrderStatus.paid, amount_usd := 5, payment_id := some "PAY_C"
  , payment_method := some "card", birthday := none, bazi_data := none
  , ai_report := none, affiliate_code := none, commission_amount := none
  , error_message := none }

/-- Fixture: environment in which the budget-wrapped generation call
times out and the refund succeeds. -/
def envBudgetTimeout : Env := ⟨true, none, GenOutcome.budgetTimeout, true⟩

/-- C8: the wall-clock budget around the generation call is
`max(configured_total_timeout, sum of the attempt timeouts + 30)` — with
base timeout `T` and 2 retries, `max(configured, T·(1+2+4) + 30)` — and
an `asyncio.TimeoutError` from that budget is treated as a generation
failure: the saga returns `false`, the order ends `failed` (or
`refunded`, when the compensating refund succeeds), and a refund is
issued for any order with non-zero amount. -/
theorem C8_total_budget :
    (∀ c T : ℚ, total_timeout c T 2 = max c (T * (1 + 2 + 4) + 30)) ∧
    (∀ (o : Order) (store : AffStore) (env : Env) (p : Product),
      o.status = OrderStatus.paid → env.userExists = true →
      get_product o.product_id = some p → p.requires_bazi = false →
      env.genResult = GenOutcome.budgetTimeout →
      (process_paid_order (some o) store env).returned = false ∧
      ((process_paid_order (some o) store env).order.map (fun x => x.status) =
          some OrderStatus.failed ∨
       (process_paid_order (some o) store env).order.map (fun x => x.status) =
          some OrderStatus.refunded) ∧
      (0 < o.amount_usd →
        Effect.refundCall ∈ (process_paid_order (some o) store env).effects)) := by
  constructor
  · intro c T
    have : ((List.range 3).map (fun i => T * 2 ^ i)).sum = T * (1 + 2 + 4) := by
      simp [List.range_succ]
      ring
    simp [total_timeout, this]
  · intro o store env p h1 h2 h3 h4 h5
    have hg : reportFalsy env.genResult = true := by simp [h5, reportFalsy]
    rw [process_nonbazi o store env p h1 h2 h3 h4]
    by_cases hamt : 0 < o.amount_usd
    · rw [generation_phase_fail_paid _ store env [] hg (by simpa using hamt)]
      by_cases hr : env.refundSucceeds
      · exact ⟨rfl, Or.inr (by simp [apply_refund, hr]), fun _ => by simp⟩
      · exact ⟨rfl, Or.inl (by simp [apply_refund, hr]), fun _ => by simp⟩
    · rw [generation_phase_fail_nonpos _ store env [] hg (by simpa using hamt)]
      exact ⟨rfl, Or.inl (by simp), fun h => absurd h hamt⟩

/-- C8 instantiated: with configured budget 240 and base timeout 60 the
budget is `max 240 (60·7+30) = 450`, and a budget timeout on a paid
order ends with `returned = false` and a refund call. -/
theorem C8_witness :
    total_timeout 240 60 2 = max 240 (60 * (1 + 2 + 4) + 30) ∧
    (process_paid_order (some orderPaidGen) [] envBudgetTimeout).returned = false ∧
    Effect.refundCall ∈
      (process_paid_order (some orderPaidGen) [] envBudgetTimeout).effects :=
  ⟨C8_total_budget.1 240 60,
   (C8_total_budget.2 orderPaidGen [] envBudgetTimeout ⟨2, 499/100, false⟩
      rfl rfl rfl rfl rfl).1,
   (C8_total_budget.2 orderPaidGen [] envBudgetTimeout ⟨2, 499/100, false⟩
      rfl rfl rfl rfl rfl).2.2 (by norm_num [orderPaidGen])⟩

/-- Fixture: environment in which generation fails (retries exhausted)
and the refund also fails. -/
def envGenFailRefundFail : Env := ⟨true, none, GenOutcome.exhausted, false⟩

/-- C10 fails on the code: for a paid order whose generation fails, the
user notification carrying the paid wording ("a refund has been issued")
is sent even though the refund fails — `process_paid_order` notifies the
user *before* attempting the refund and regardless of its outcome, so
the message is not "only truthful". -/
theorem C10_counterexample :
    envGenFailRefundFail.refundSucceeds = false ∧
    0 < orderPaidGen.amount_usd ∧
    Effect.notifyUserFailed false ∈
      (process_paid_order (some orderPaidGen) [] envGenFailRefundFail).effects := by
  refine ⟨rfl, by decide, by decide⟩

/-- C10 amended: the refund-truthfulness holds only on the
enrichment-failure path — there the paid-wording user message appears
iff the refund succeeded, the admin being notified instead on refund
failure. On the generation-failure path a paid order's user is sent the
refund-promising message regardless of the refund outcome (and the admin
is always notified too). Free orders' users get the retry-later wording
and no refund call, on either path. -/
theorem C10_amended :
    (∀ (o : Order) (store : AffStore) (env : Env) (p : Product),
      o.status = OrderStatus.paid → env.userExists = true →
      get_product o.product_id = some p → p.requires_bazi = true →
      truthyOptStr o.birthday = true → env.baziResult = none →
      ((Effect.notifyUserFailed false ∈
          (process_paid_order (some o) store env).effects ↔
        env.refundSucceeds = true) ∧
       (Effect.notifyAdmin ∈ (process_paid_order (some o) store env).effects ↔
        env.refundSucceeds = false))) ∧
    (∀ (o : Order) (store : AffStore) (env : Env) (p : Product),
      o.status = OrderStatus.paid → env.userExists = true →
      get_product o.product_id = some p → p.requires_bazi = false →
      reportFalsy env.genResult = true → 0 < o.amount_usd →
      Effect.notifyUserFailed false ∈
        (process_paid_order (some o) store env).effects ∧
      Effect.refundCall ∈ (process_paid_order (some o) store env).effects ∧
      Effect.notifyAdmin ∈ (process_paid_order (some o) store env).effects) ∧
    (∀ (o : Order) (store : AffStore) (env : Env) (p : Product),
      o.status = OrderStatus.paid → env.userExists = true →
      get_product o.product_id = some p → p.requires_bazi = false →
      reportFalsy env.genResult = true → o.amount_usd = 0 →
      Effect.notifyUserFailed true ∈
        (process_paid_order (some o) store env).effects ∧
      Effect.refundCall ∉ (process_paid_order (some o) store env).effects) := by
  refine ⟨?_, ?_, ?_⟩
  · intro o store env p h1 h2 h3 h4 h5 h6
    rw [process_bazi_fail o store env p h1 h2 h3 h4 h5 h6]
    by_cases hr : env.refundSucceeds <;> simp [hr]
  · intro o store env p h1 h2 h3 h4 hg hamt
    rw [process_nonbazi o store env p h1 h2 h3 h4]
    rw [generation_phase_fail_paid _ store env [] hg (by simpa using hamt)]
    simp
  · intro o store env p h1 h2 h3 h4 hg hamt
    rw [process_nonbazi o store env p h1 h2 h3 h4]
    rw [generation_phase_fail_free _ store env [] hg (by simpa using hamt)]
    simp

/-- Fixture: a paid enrichment order with a birth date present. -/
def orderBaziWithBirthday : Order :=
  { orderBaziNoBirthday with birthday := some "1990-01-01" }

/-- C10 amended, instantiated: on the enrichment-failure path with
`envBenign` (refund succeeds) the paid-wording message appears exactly
because the refund succeeded; on the generation-failure path with a
failing refund the paid-wording message appears anyway. -/
theorem C10_amended_witness :
    (Effect.notifyUserFailed false ∈
        (process_paid_order (some orderBaziWithBirthday) [] envBenign).effects ↔
      envBenign.refundSucceeds = true) ∧
    Effect.notifyUserFailed false ∈
      (process_paid_order (some orderPaidGen) [] envGenFailRefundFail).effects :=
  ⟨(C10_amended.1 orderBaziWithBirthday [] envBenign ⟨5, 2999/100, true⟩
      rfl rfl rfl rfl rfl rfl).1,
   (C10_amended.2.1 orderPaidGen [] envGenFailRefundFail ⟨2, 499/100, false⟩
      rfl rfl rfl rfl rfl (by norm_num [orderPaidGen])).1⟩

/-! ### Claims about the adapters' retry policy -/

/-- C5 fails on the code: the enrichment adapter (`BaziService`, base
timeout 15) passes the *same* constant 15-second timeout to every
attempt — under persistent 5xx its three attempts use timeouts
`[15, 15, 15]`, not the claimed `[T, 2T, 4T] = [15, 30, 60]`. -/
theorem C5_counterexample :
    (get_bazi_data (fun _ => BaziOutcome.serverError 500)).1.map
      (fun a => a.timeout) = [15, 15, 15] ∧
    ¬ (get_bazi_data (fun _ => BaziOutcome.serverError 500)).1.map
      (fun a => a.timeout) = [15, 15 * 2, 15 * 4] := by
  constructor
  · rfl
  · intro h
    rw [show (get_bazi_data (fun _ => BaziOutcome.serverError 500)).1.map
        (fun a => a.timeout) = [15, 15, 15] from rfl] at h
    simp only [List.cons.injEq, and_true, true_and] at h
    norm_num at h

/-- C5 amended: under persistent 5xx both adapters make exactly 3
attempts (base + 2 retries) with exponential backoff waits of 1 and 2
seconds, and a 4xx on the first attempt stops both immediately after
one attempt; but only the generation adapter doubles the per-attempt
timeout (`T, 2T, 4T`) — the enrichment adapter uses its constant 15s on
every attempt. -/
theorem C5_amended :
    (∀ (T : ℚ) (f : Nat → AIOutcome) (code : Nat → Nat),
      (∀ k, f k = AIOutcome.serverError (code k)) →
      (generate_report T f).1 =
        [⟨0, T⟩, ⟨1, T * 2⟩, ⟨2, T * 4⟩] ∧ (generate_report T f).2 = none) ∧
    (∀ (g : Nat → BaziOutcome) (code : Nat → Nat),
      (∀ k, g k = BaziOutcome.serverError (code k)) →
      (get_bazi_data g).1 = [⟨0, 15⟩, ⟨1, 15⟩, ⟨2, 15⟩] ∧
      (get_bazi_data g).2 = none) ∧
    (∀ (T : ℚ) (f : Nat → AIOutcome) (c : Nat),
      f 0 = AIOutcome.clientError c →
      (generate_report T f).1 = [⟨0, T⟩] ∧ (generate_report T f).2 = none) ∧
    (∀ (g : Nat → BaziOutcome) (c : Nat),
      g 0 = BaziOutcome.clientError c →
      (get_bazi_data g).1 = [⟨0, 15⟩] ∧ (get_bazi_data g).2 = none) := by
  refine ⟨?_, ?_, ?_, ?_⟩
  · intro T f code hf
    constructor
    · simp [generate_report, max_retries, ai_attempts, hf 0, hf 1, hf 2,
        aiSucceeds, aiStops, backoff_wait, AttemptRec.mk.injEq]
      norm_num [mul_comm]
    · simp [generate_report, max_retries, ai_attempts, hf 0, hf 1, hf 2,
        aiSucceeds, aiStops]
  · intro g code hg
    constructor
    · simp [get_bazi_data, max_retries, bazi_attempts, hg 0, hg 1, hg 2,
        baziSucceeds, baziStops, backoff_wait, bazi_timeout]
    · simp [get_bazi_data, max_retries, bazi_attempts, hg 0, hg 1, hg 2,
        baziSucceeds, baziStops]
  · intro T f c hf
    constructor <;>
      simp [generate_report, max_retries, ai_attempts, hf, aiSucceeds, aiStops,
        backoff_wait]
  · intro g c hg
    constructor <;>
      simp [get_bazi_data, max_retries, bazi_attempts, hg, baziSucceeds, baziStops,
        backoff_wait, bazi_timeout]

/-- C5 amended, instantiated with base timeout 60, persistent 503s and a
first-attempt 400. -/
theorem C5_amended_witness :
    (generate_report 60 (fun _ => AIOutcome.serverError 503)).1 =
      [⟨0, 60⟩, ⟨1, 60 * 2⟩, ⟨2, 60 * 4⟩] ∧
    (get_bazi_data (fun _ => BaziOutcome.serverError 503)).1 =
      [⟨0, 15⟩, ⟨1, 15⟩, ⟨2, 15⟩] ∧
    (generate_report 60 (fun _ => AIOutcome.clientError 400)).1 = [⟨0, 60⟩] :=
  ⟨(C5_amended.1 60 (fun _ => AIOutcome.serverError 503) (fun _ => 503)
      (fun _ => rfl)).1,
   (C5_amended.2.1 (fun _ => BaziOutcome.serverError 503) (fun _ => 503)
      (fun _ => rfl)).1,
   (C5_amended.2.2.1 60 (fun _ => AIOutcome.clientError 400) 400 rfl).1⟩

/-! ### Claims about the payment webhook -/

/-- Fixture: a completed order sitting in the order table. -/
def orderDoneInStore : Order :=
  { order_id := "ORD_9", product_id := 2, product_name := some "Weekly Horoscope"
  , status := OrderStatus.completed, amount_usd := 5, payment_id := some "PAY_9"
  , payment_method := some "card", birthday := none, bazi_data := none
  , ai_report := some "done", affiliate_code := none, commission_amount := none
  , error_message := none }

/-- Fixture: a validly signed `paid` webhook for `orderDoneInStore`. -/
def payloadPaid9 : WebhookPayload :=
  { order_id := "ORD_9", status := "paid", payment_id := some "PAY_9b"
  , payment_method := some "card", error_message := none }

/-- C9 fails on the code: `process_payment_webhook` never consults the
order's current state, so a validly signed duplicate `paid` webhook for
an order already in the terminal `completed` state succeeds and moves it
backward to `paid`. -/
theorem C9_counterexample :
    orderDoneInStore.status = OrderStatus.completed ∧
    (process_payment_webhook (fun _ _ => true) [orderDoneInStore]
      payloadPaid9 "sig").1 = true ∧
    (findOrder (process_payment_webhook (fun _ _ => true) [orderDoneInStore]
        payloadPaid9 "sig").2 "ORD_9").map (fun x => x.status) =
      some OrderStatus.paid := by
  refine ⟨rfl, by decide, by decide⟩

/-- C9 amended: an invalid signature, a falsy or unknown `order_id`, or
an unrecognised payload status each yield `false` with no mutation; a
valid signature maps `paid` to `status="paid"` and `failed`/`cancelled`
to `status="failed"` *unconditionally* — the order's current state is
never checked, so even an order in a terminal state (completed, failed,
refunded) is overwritten. -/
theorem C9_amended (verify : WebhookPayload → String → Bool) (store : OrderStore)
    (payload : WebhookPayload) (signature : String) :
    (verify payload signature = false →
      process_payment_webhook verify store payload signature = (false, store)) ∧
    (findOrder store payload.order_id = none →
      process_payment_webhook verify store payload signature = (false, store)) ∧
    (payload.status ≠ "paid" → payload.status ≠ "failed" →
      payload.status ≠ "cancelled" →
      process_payment_webhook verify store payload signature = (false, store)) ∧
    (∀ o, verify payload signature = true → payload.order_id ≠ "" →
      findOrder store payload.order_id = some o → payload.status = "paid" →
      process_payment_webhook verify store payload signature =
        (true, setOrder store
          { o with status := OrderStatus.paid
                 , payment_id := payload.payment_id
                 , payment_method := some (payload.payment_method.getD "unknown") })) ∧
    (∀ o, verify payload signature = true → payload.order_id ≠ "" →
      findOrder store payload.order_id = some o → payload.status = "failed" →
      process_payment_webhook verify store payload signature =
        (true, setOrder store
          { o with status := OrderStatus.failed
                 , error_message := some (payload.error_message.getD "Payment failed") })) ∧
    (∀ o, verify payload signature = true → payload.order_id ≠ "" →
      findOrder store payload.order_id = some o → payload.status = "cancelled" →
      process_payment_webhook verify store payload signature =
        (true, setOrder store
          { o with status := OrderStatus.failed
                 , error_message := some "Payment cancelled by user" })) := by
  refine ⟨?_, ?_, ?_, ?_, ?_, ?_⟩
  · intro hv
    simp [process_payment_webhook, hv]
  · intro hfind
    by_cases hv : verify payload signature = false
    · simp [process_payment_webhook, hv]
    · by_cases hid : payload.order_id = ""
      · simp [process_payment_webhook, hv, hid]
      · simp [process_payment_webhook, hv, hid, hfind]
  · intro hp hf hc
    by_cases hv : verify payload signature = false
    · simp [process_payment_webhook, hv]
    · by_cases hid : payload.order_id = ""
      · simp [process_payment_webhook, hv, hid]
      · cases hfind : findOrder store payload.order_id with
        | none => simp [process_payment_webhook, hv, hid, hfind]
        | some o => simp [process_payment_webhook, hv, hid, hfind, hp, hf, hc]
  · intro o hv hid hfind hs
    simp [process_payment_webhook, hv, hid, hfind, hs]
  · intro o hv hid hfind hs
    simp [process_payment_webhook, hv, hid, hfind, hs]
  · intro o hv hid hfind hs
    simp [process_payment_webhook, hv, hid, hfind, hs]

/-- C9 amended, instantiated: a valid `paid` webhook overwrites the
completed `orderDoneInStore` to `paid`, and an invalid signature is a
pure rejection. -/
theorem C9_amended_witness :
    process_payment_webhook (fun _ _ => true) [orderDoneInStore] payloadPaid9 "sig" =
      (true, setOrder [orderDoneInStore]
        { orderDoneInStore with
            status := OrderStatus.paid
          , payment_id := payloadPaid9.payment_id
          , payment_method := some (payloadPaid9.payment_method.getD "unknown") }) ∧
    process_payment_webhook (fun _ _ => false) [orderDoneInStore] payloadPaid9 "sig" =
      (false, [orderDoneInStore]) :=
  ⟨(C9_amended (fun _ _ => true) [orderDoneInStore] payloadPaid9 "sig").2.2.2.1
      orderDoneInStore rfl (by decide) rfl rfl,
   (C9_amended (fun _ _ => false) [orderDoneInStore] payloadPaid9 "sig").1 rfl⟩

end ApolloOracle

